import Mathlib

/-!
# dense_reconstruction: FlyingStereoCameraInterface

A shallow embedding of `flying_stereo_camera_interface.cpp`.

* Scalars.  The source computes with `double`.  The embedding is parametric in
  the scalar type `R` and the square root used by `Eigen::Vector3d::norm` is
  passed in as a function.  `Double` is the arithmetic of the source: binary64
  with rounding to nearest.  The real numbers with `Real.sqrt` are the exact
  arithmetic the distances of the specification are stated in, and the
  definitions run over `ℚ`.
* State.  The member variables of the class that the operations read or write
  are the fields of `FlyingStereoCameraInterface`; every member function becomes
  a function from the state before the call to an outcome holding the state
  after, the returned value and the calls made to the collaborators.
* Collaborators.  ROS logging, `ros::shutdown`, `ros::service::call`,
  `advertiseService`, `ros::Duration::sleep` and the data retriever are not
  executed: a call to one of them is recorded as an `Effect`, and what the
  collaborator answers is an argument of the function that calls it.  `Node` is
  what the recorded calls do to the ROS node: which services are available.
-/

namespace DenseReconstruction

/-! ## The type double -/

/-- A value of the C++ type `double`, IEEE 754 binary64: a finite number, given
by its value, an infinity with its sign, or a NaN.  The sign of a zero and the
payload of a NaN are not kept. -/
inductive Double where
  | finite (value : ℚ)
  | inf (negative : Bool)
  | nan
deriving DecidableEq, Repr

namespace Double

/-- The integer nearest to a rational that is not negative, the even one of the
two on a tie. -/
def roundHalfEven (n : ℚ) : ℤ :=
  let f := ⌊n⌋
  let r := n - f
  if r < 1 / 2 then f else if 1 / 2 < r then f + 1 else if f % 2 = 0 then f else f + 1

/-- The distance between neighbouring doubles at the magnitude `a > 0`: 53
significant bits, and 2^-1074 in the subnormal range. -/
def quantum (a : ℚ) : ℚ :=
  2 ^ max (Int.log 2 a - 52) (-1074)

/-- The double an exact result is rounded to: to the nearest double, on a tie
to the one with the even significand, and to an infinity from 2^1024 on. -/
def rnd (q : ℚ) : Double :=
  if q = 0 then finite 0
  else
    let r := roundHalfEven (|q| / quantum |q|) * quantum |q|
    if 2 ^ 1024 ≤ r then inf (decide (q < 0)) else finite (if q < 0 then -r else r)

/-- The sum of two doubles. -/
def add : Double → Double → Double
  | finite a, finite b => rnd (a + b)
  | finite _, inf n => inf n
  | inf n, finite _ => inf n
  | inf n, inf m => if n = m then inf n else nan
  | _, _ => nan

/-- The difference of two doubles. -/
def sub : Double → Double → Double
  | finite a, finite b => rnd (a - b)
  | finite _, inf n => inf (!n)
  | inf n, finite _ => inf n
  | inf n, inf m => if n = m then nan else inf n
  | _, _ => nan

/-- The product of two doubles. -/
def mul : Double → Double → Double
  | finite a, finite b => rnd (a * b)
  | finite a, inf n => if a = 0 then nan else inf (xor (decide (a < 0)) n)
  | inf n, finite b => if b = 0 then nan else inf (xor n (decide (b < 0)))
  | inf n, inf m => inf (xor n m)
  | _, _ => nan

/-- The square root of a double, `std::sqrt`: the double nearest to the exact
root. -/
def sqrt : Double → Double
  | finite q =>
    if q < 0 then nan
    else if q = 0 then finite 0
    else
      let u : ℚ := 2 ^ max (Int.log 2 q / 2 - 52) (-1074)
      let s := q / (u * u)
      let f : ℤ := Nat.sqrt ⌊s⌋.toNat
      let h : ℚ := f + 1 / 2
      let m : ℤ := if s < h * h then f else if h * h < s then f + 1
        else if f % 2 = 0 then f else f + 1
      finite (m * u)
  | inf false => inf false
  | inf true => nan
  | nan => nan

instance : Add Double := ⟨add⟩

instance : Sub Double := ⟨sub⟩

instance : Mul Double := ⟨mul⟩

end Double

/-! ## Eigen -/

/-- Eigen::Vector3d, over the scalar type `R`. -/
structure Vector3d (R : Type) where
  x : R
  y : R
  z : R
deriving DecidableEq, Repr

/-- Eigen::Quaterniond, over the scalar type `R`; the constructor of the source
takes the coefficients in the order `(w, x, y, z)`. -/
structure Quaterniond (R : Type) where
  w : R
  x : R
  y : R
  z : R
deriving DecidableEq, Repr

section VectorOps

variable {R : Type} [Add R] [Sub R] [Mul R]

/-- Componentwise difference, `operator-` of Eigen::Vector3d. -/
def Vector3d.sub (a b : Vector3d R) : Vector3d R :=
  ⟨a.x - b.x, a.y - b.y, a.z - b.z⟩

/-- Sum of the squared coefficients, `squaredNorm()`. -/
def Vector3d.squaredNorm (v : Vector3d R) : R :=
  v.x * v.x + v.y * v.y + v.z * v.z

/-- The value of `norm()`: the square root of `squaredNorm()`. -/
def Vector3d.norm (sqrt : R → R) (v : Vector3d R) : R :=
  sqrt v.squaredNorm

end VectorOps

section EigenOps

variable {R : Type} [Field R]

/-- Product of two quaternions, `operator*` of Eigen::Quaterniond. -/
def Quaterniond.mul (a b : Quaterniond R) : Quaterniond R :=
  ⟨a.w * b.w - a.x * b.x - a.y * b.y - a.z * b.z,
   a.w * b.x + a.x * b.w + a.y * b.z - a.z * b.y,
   a.w * b.y + a.y * b.w + a.z * b.x - a.x * b.z,
   a.w * b.z + a.z * b.w + a.x * b.y - a.y * b.x⟩

/-- Sum of the squared coefficients of a quaternion, `squaredNorm()`. -/
def Quaterniond.squaredNorm (q : Quaterniond R) : R :=
  q.w * q.w + q.x * q.x + q.y * q.y + q.z * q.z

/-- The value of `norm()` of a quaternion. -/
def Quaterniond.norm (sqrt : R → R) (q : Quaterniond R) : R :=
  sqrt q.squaredNorm

end EigenOps

/-! ## Data model -/

/-- Modelled from the spec: the struct movements::Pose is declared outside this
file; a pose is a "position (3 real-valued coordinates) + orientation (unit
quaternion)".  The source reads and writes `position` and `orientation`. -/
structure Pose (R : Type) where
  position : Vector3d R
  orientation : Quaterniond R
deriving DecidableEq, Repr

/-- Modelled from the spec: the class `View` is declared outside this file; a
view is "an index into the ViewSpace and a 6-DoF pose", the index being a
non-negative integer.  The source reads `pose()` and `index`. -/
structure View (R : Type) where
  pose : Pose R
  index : Nat
deriving DecidableEq, Repr

/-- Modelled from the spec: the class `ViewSpace` is declared outside this file;
it is "an ordered sequence of Views, indexed by position". -/
structure ViewSpace (R : Type) where
  views : List (View R)
deriving DecidableEq, Repr

/-- Modelled from the spec: `size()` "returns count of admissible views". -/
def ViewSpace.size {R : Type} (vs : ViewSpace R) : Nat :=
  vs.views.length

/-- Modelled from the spec: `getView(index)` "returns the View at `index`",
with the precondition `0 ≤ index < size()`; out of range the behaviour is
undefined, which is `none` here. -/
def ViewSpace.getView {R : Type} (vs : ViewSpace R) (index : Nat) : Option (View R) :=
  vs.views.get? index

/-- Modelled from the spec: the enumeration of `MovementCost` is declared
outside this file; it is an "enumerated status {NONE, alternative feasibility
flags}".  The source names `NONE` only. -/
inductive MovementCostException where
  | NONE
  | other (code : Nat)
deriving DecidableEq, Repr

/-- Modelled from the spec: the struct `RobotPlanningInterface::MovementCost` is
declared outside this file; it holds a real `cost` and an `exception`.  The
source assigns `cost` in both cost functions; `exception` is `none` where the
function leaves it as default construction made it. -/
structure MovementCost (R : Type) where
  cost : R
  exception : Option MovementCostException
deriving DecidableEq, Repr

/-! ## Collaborators -/

/-- Severity of a ROS console message. -/
inductive LogLevel where
  | INFO
  | WARN
  | FATAL
deriving DecidableEq, Repr

/-- The request of gazebo_msgs::SetModelState, as far as the source fills it. -/
structure SetModelState (R : Type) where
  model_name : String
  pose : Pose R
deriving DecidableEq, Repr

/-- A call the interface makes to one of its collaborators. -/
inductive Effect (R : Type) where
  /-- ROS_INFO, ROS_WARN, ROS_FATAL and their stream variants. -/
  | log (level : LogLevel) (msg : String)
  /-- The call ros::shutdown(). -/
  | shutdown
  /-- The call ros::service::call(service, srv), with the answer it gave. -/
  | serviceCall (service : String) (srv : SetModelState R) (answer : Bool)
  /-- The call ros::Duration(seconds).sleep(). -/
  | sleep (seconds : R)
  /-- The call advertiseService(service, handler, this) on the node handle. -/
  | advertiseService (service : String)
  /-- The call sendTransform(transform, now, frame, child) on the broadcaster. -/
  | sendTransform (transform : Pose R) (frame child : String)
  /-- The call retrieveData() or retrieveData(path) on the data retriever. -/
  | retrieveData (path : Option String)
deriving DecidableEq, Repr

/-- What the constructor depends on in the ROS node, roscpp, which is outside
this repository: whether the node is ok, and the services it has advertised. -/
structure Node where
  ok : Bool
  services : List String
deriving DecidableEq, Repr

/-- The node the constructor is handed: started, with no service advertised. -/
def Node.started : Node :=
  ⟨true, []⟩

/-- What a call does to the node, in roscpp: `ros::shutdown()` leaves the node
not ok and drops its services; `advertiseService` makes the service available
on a node that is ok and does not advertise it yet, and does nothing on a node
that is shut down (it returns an empty ServiceServer); the other calls leave
the node as it is. -/
def Node.step {R : Type} (n : Node) : Effect R → Node
  | .shutdown => ⟨false, []⟩
  | .advertiseService service =>
    if n.ok && !n.services.contains service then ⟨n.ok, n.services ++ [service]⟩ else n
  | _ => n

/-- The node after a sequence of calls. -/
def Node.run {R : Type} (n : Node) (effects : List (Effect R)) : Node :=
  effects.foldl Node.step n

/-- Modelled from the spec: `movements::toROS` is declared outside this file; the
move hands the collaborator "a full 6-DoF pose", the position and the
orientation of its argument. -/
def toROS {R : Type} (p : Pose R) : Pose R :=
  p

/-- The message types of the service layer and the conversions between them and
the classes of the package, all declared outside this file. -/
structure Wire (R : Type) where
  /-- The message dense_reconstruction::ViewMsg. -/
  ViewMsg : Type
  /-- The message dense_reconstruction::ViewSpaceMsg. -/
  ViewSpaceMsg : Type
  /-- The message dense_reconstruction::MovementCostMsg. -/
  MovementCostMsg : Type
  /-- The constructor View(ViewMsg). -/
  viewOfMsg : ViewMsg → View R
  /-- The method View::toMsg. -/
  viewToMsg : View R → ViewMsg
  /-- The method ViewSpace::toMsg. -/
  viewSpaceToMsg : ViewSpace R → ViewSpaceMsg
  /-- The method MovementCost::toMsg. -/
  movementCostToMsg : MovementCost R → MovementCostMsg

/-! ## The interface -/

/-- The member variables of the class that its member functions read or write.
The class is declared outside this file: `current_view_` is a non-negative
integer, as `View.index`, and `cam_to_image_` a quaternion. -/
structure FlyingStereoCameraInterface (R : Type) where
  view_planning_frame_ : String
  view_space_ : ViewSpace R
  current_view_ : Nat
  cam_to_image_ : Quaterniond R
deriving DecidableEq, Repr

/-- What a member function leaves behind: the object after the call, the value
returned and the calls made to the collaborators, in order. -/
structure Outcome (R : Type) (α : Type) where
  state : FlyingStereoCameraInterface R
  ret : α
  effects : List (Effect R)

/-- What a service handler leaves behind: as `Outcome`, with the response
`_res` it filled. -/
structure ServiceOutcome (R : Type) (ρ : Type) where
  state : FlyingStereoCameraInterface R
  res : ρ
  ret : Bool
  effects : List (Effect R)

/-- A `ViewSpace*`: null, the address of the member `view_space_` of the
interface, or the address of some other ViewSpace object. -/
inductive ViewSpacePtr where
  | null
  | view_space_
  | object (address : Nat)
deriving DecidableEq, Repr

/-- What `getPlanningSpace` leaves behind.  The pointer is passed by value:
`_space` is the parameter, a variable of the callee, at the return; `handle` is
the variable of the caller whose value was passed. -/
structure PlanningSpaceOutcome (R : Type) where
  state : FlyingStereoCameraInterface R
  _space : ViewSpacePtr
  handle : ViewSpacePtr
  ret : Bool
  effects : List (Effect R)

/-- What `moveTo` leaves behind: as `Outcome`, with the view the reference
`_target_view` names, after the call. -/
structure MoveToOutcome (R : Type) where
  state : FlyingStereoCameraInterface R
  _target_view : View R
  ret : Bool
  effects : List (Effect R)

namespace FlyingStereoCameraInterface

section Operations

variable {R : Type} [Field R]

/-- The function `initializePlanningFrame`. -/
def initializePlanningFrame (s : FlyingStereoCameraInterface R) : Outcome R String :=
  ⟨s, s.view_planning_frame_, []⟩

/-- The function `initializePlanningSpace`. -/
def initializePlanningSpace {Info : Type} (s : FlyingStereoCameraInterface R)
    (_info : Info) : Outcome R Bool :=
  ⟨s, false,
    [.log .WARN ("FlyingStereoCameraInterface::initializePlanningSpace:: For this interface no "
      ++ "planning space initialization is currently available. The planning space is loaded "
      ++ "from file on startup.")]⟩

/-- The function `getCurrentView`; `none` is the undefined result of `getView`
out of range. -/
def getCurrentView (s : FlyingStereoCameraInterface R) : Outcome R (Option (View R)) :=
  ⟨s, s.view_space_.getView s.current_view_,
    [.log .INFO ("Current view is: " ++ toString s.current_view_)]⟩

/-- The function `getPlanningSpace`: the assignment is to the parameter. -/
def getPlanningSpace (s : FlyingStereoCameraInterface R) (handle : ViewSpacePtr) :
    PlanningSpaceOutcome R :=
  let _space : ViewSpacePtr := .view_space_
  ⟨s, _space, handle, true, []⟩

/-- The function `retrieveData()`; `retriever` is what the data retriever
answers to a request. -/
def retrieveData {Info : Type} (s : FlyingStereoCameraInterface R)
    (retriever : Option String → Info) : Outcome R Info :=
  ⟨s, retriever none, [.retrieveData none]⟩

/-- The function `movementCost(View&)`. -/
def movementCost (s : FlyingStereoCameraInterface R) (_target_view : View R) :
    Outcome R (MovementCost R) :=
  ⟨s, ⟨0, some .NONE⟩, []⟩

/-- The function `movementCost(View&, View&, bool)`, in any arithmetic that has
the difference, the product and the sum `norm()` is made of. -/
def movementCost3 {R : Type} [Add R] [Sub R] [Mul R] (sqrt : R → R)
    (s : FlyingStereoCameraInterface R) (_start_view _target_view : View R)
    (_fill_additional_information : Bool) : Outcome R (MovementCost R) :=
  let start_view := _start_view.pose
  let target_view := _target_view.pose
  let dist_vec := target_view.position.sub start_view.position
  ⟨s, ⟨dist_vec.norm sqrt, none⟩, []⟩

/-- The function `moveTo`; `answer` is what ros::service::call returns. -/
def moveTo (s : FlyingStereoCameraInterface R) (_target_view : View R) (answer : Bool) :
    MoveToOutcome R :=
  let current_img_pose := _target_view.pose
  let current_img_pose : Pose R :=
    { current_img_pose with orientation := current_img_pose.orientation.mul s.cam_to_image_ }
  let srv_call : SetModelState R := ⟨"flying_stereo_cam", toROS current_img_pose⟩
  ⟨{ s with current_view_ := _target_view.index }, _target_view, true,
    [.serviceCall "/gazebo/set_model_state" srv_call answer, .sleep 1]⟩

/-- The body of the loop of `run`, executed while the node is ok; nothing is
sent when `getView` is out of range. -/
def runBody (s : FlyingStereoCameraInterface R) : Outcome R Unit :=
  match s.view_space_.getView s.current_view_ with
  | some view =>
    let current_img_pose := view.pose
    ⟨s, (), [.sendTransform (toROS current_img_pose) "dr_origin" "cam_pos", .sleep 0.05]⟩
  | none => ⟨s, (), []⟩

/-! ### Service handlers -/

/-- The handler `planningSpaceInitService`; `general_info` is the default
constructed initialization info. -/
def planningSpaceInitService {Info : Type} (s : FlyingStereoCameraInterface R)
    (general_info : Info) : ServiceOutcome R Bool :=
  let o := s.initializePlanningSpace general_info
  ⟨o.state, o.ret, true, o.effects⟩

/-- The handler `feasibleViewSpaceRequestService`. -/
def feasibleViewSpaceRequestService (W : Wire R) (s : FlyingStereoCameraInterface R) :
    ServiceOutcome R W.ViewSpaceMsg :=
  ⟨s, W.viewSpaceToMsg s.view_space_, true, [.log .INFO "View space service called."]⟩

/-- The handler `currentViewService`. -/
def currentViewService (W : Wire R) (s : FlyingStereoCameraInterface R) :
    ServiceOutcome R (Option W.ViewMsg) :=
  let o := s.getCurrentView
  ⟨o.state, o.ret.map W.viewToMsg, true, o.effects⟩

/-- The file name the handler `retrieveDataService` streams together. -/
def pclFile (current_view_ : Nat) : String :=
  "/home/stefan/catkin_ws/src/dense_reconstruction/data/bunny_pcl/bunny_set_"
    ++ toString current_view_

/-- The handler `retrieveDataService`; `retriever` is what the data retriever
answers to a request. -/
def retrieveDataService {Info : Type} (s : FlyingStereoCameraInterface R)
    (retriever : Option String → Info) : ServiceOutcome R Info :=
  ⟨s, retriever (some (pclFile s.current_view_)), true,
    [.log .INFO "Data retrieval service called.", .retrieveData (some (pclFile s.current_view_))]⟩

/-- The handler `movementCostService`. -/
def movementCostService (W : Wire R) (sqrt : R → R) (s : FlyingStereoCameraInterface R)
    (start_view target_view : W.ViewMsg) (additional_information : Bool) :
    ServiceOutcome R W.MovementCostMsg :=
  let start := W.viewOfMsg start_view
  let target := W.viewOfMsg target_view
  let o := s.movementCost3 sqrt start target additional_information
  ⟨o.state, W.movementCostToMsg o.ret, true,
    .log .INFO "Movement cost service called." :: o.effects⟩

/-- The handler `moveToService`; `answer` is what ros::service::call returns. -/
def moveToService (W : Wire R) (s : FlyingStereoCameraInterface R) (target_view : W.ViewMsg)
    (answer : Bool) : ServiceOutcome R Bool :=
  let target := W.viewOfMsg target_view
  let o := s.moveTo target answer
  ⟨o.state, o.ret, true, .log .INFO "MoveTo service called." :: o.effects⟩

/-- The handler `setupTFService`: its body is empty and has no return statement;
`unspecified` is the value the caller happens to see. -/
def setupTFService (s : FlyingStereoCameraInterface R) (unspecified : Bool) :
    ServiceOutcome R Unit :=
  ⟨s, (), unspecified, []⟩

/-! ### Construction -/

/-- The names under which the constructor advertises the seven handlers, in the
order of the source. -/
def advertised : List String :=
  ["/dense_reconstruction/robot_interface/planning_space_initialization",
   "/dense_reconstruction/robot_interface/feasible_view_space",
   "/dense_reconstruction/robot_interface/current_view",
   "/dense_reconstruction/robot_interface/retrieve_data",
   "/dense_reconstruction/robot_interface/movement_cost",
   "/dense_reconstruction/robot_interface/move_to",
   "/dense_reconstruction/robot_interface/setup_tf"]

/-- The object after the member initializers of the constructor and the two
assignments that do not depend on the view space; `frame_param` is the value of
the parameter `view_planning_frame`, when it is set. -/
def ctorInit (frame_param : Option String) (loaded : ViewSpace R) :
    FlyingStereoCameraInterface R :=
  { view_planning_frame_ := frame_param.getD "dr_origin"
    view_space_ := loaded
    current_view_ := 0
    cam_to_image_ := ⟨0.5, 0.5, -0.5, 0.5⟩ }

/-- The constructor.  `loaded` is the view space `loadFromFile` leaves in
`view_space_`; `answer` is what ros::service::call returns, when it is called. -/
def ctor (frame_param : Option String) (loaded : ViewSpace R) (answer : Bool) :
    Outcome R Unit :=
  let s := ctorInit frame_param loaded
  let gate : FlyingStereoCameraInterface R × List (Effect R) :=
    if s.view_space_.size = 0 then
      (s, [.log .FATAL "The view space couldn't be loaded from file. Shutting down node...",
           .shutdown])
    else
      let loadedMsg : Effect R :=
        .log .INFO ("Loaded view space with " ++ toString s.view_space_.size ++ " views.")
      match s.view_space_.getView 0 with
      | some first =>
        let o := s.moveTo first answer
        (o.state, [loadedMsg, .log .INFO "Setting up first position."] ++ o.effects)
      | none => (s, [loadedMsg])
  ⟨gate.1, (), gate.2 ++ advertised.map .advertiseService⟩

end Operations

/-! ### The interface as a state machine -/

/-- One call of a member function or service handler on a constructed object,
with the arguments it receives and what the collaborators answer during it. -/
inductive Call (R : Type) (W : Wire R) (InitInfo ReceiveInfo : Type) where
  | initializePlanningFrame
  | initializePlanningSpace (_info : InitInfo)
  | getCurrentView
  | getPlanningSpace (handle : ViewSpacePtr)
  | retrieveData (retriever : Option String → ReceiveInfo)
  | movementCost (_target_view : View R)
  | movementCost3 (sqrt : R → R) (_start_view _target_view : View R)
      (_fill_additional_information : Bool)
  | moveTo (_target_view : View R) (answer : Bool)
  | runBody
  | planningSpaceInitService (general_info : InitInfo)
  | feasibleViewSpaceRequestService
  | currentViewService
  | retrieveDataService (retriever : Option String → ReceiveInfo)
  | movementCostService (sqrt : R → R) (start_view target_view : W.ViewMsg)
      (additional_information : Bool)
  | moveToService (target_view : W.ViewMsg) (answer : Bool)
  | setupTFService (unspecified : Bool)

section Machine

variable {R : Type} [Field R] {W : Wire R} {InitInfo ReceiveInfo : Type}

/-- The object after a call. -/
def Call.after (s : FlyingStereoCameraInterface R) :
    Call R W InitInfo ReceiveInfo → FlyingStereoCameraInterface R
  | .initializePlanningFrame => s.initializePlanningFrame.state
  | .initializePlanningSpace info => (s.initializePlanningSpace info).state
  | .getCurrentView => s.getCurrentView.state
  | .getPlanningSpace handle => (s.getPlanningSpace handle).state
  | .retrieveData retriever => (s.retrieveData retriever).state
  | .movementCost target => (s.movementCost target).state
  | .movementCost3 sqrt start target flag => (s.movementCost3 sqrt start target flag).state
  | .moveTo target answer => (s.moveTo target answer).state
  | .runBody => s.runBody.state
  | .planningSpaceInitService info => (s.planningSpaceInitService info).state
  | .feasibleViewSpaceRequestService => (s.feasibleViewSpaceRequestService W).state
  | .currentViewService => (s.currentViewService W).state
  | .retrieveDataService retriever => (s.retrieveDataService retriever).state
  | .movementCostService sqrt start target flag =>
    (s.movementCostService W sqrt start target flag).state
  | .moveToService target answer => (s.moveToService W target answer).state
  | .setupTFService unspecified => (s.setupTFService unspecified).state

/-- The view a call asks the camera to move to, when it is a move. -/
def Call.target : Call R W InitInfo ReceiveInfo → Option (View R)
  | .moveTo target _ => some target
  | .moveToService target _ => some (W.viewOfMsg target)
  | _ => none

end Machine

/-- The member `current_view_` is a valid index of the member `view_space_`. -/
def ValidIndex {R : Type} (s : FlyingStereoCameraInterface R) : Prop :=
  s.current_view_ < s.view_space_.size

instance {R : Type} (s : FlyingStereoCameraInterface R) : Decidable (ValidIndex s) :=
  inferInstanceAs (Decidable (s.current_view_ < s.view_space_.size))

end FlyingStereoCameraInterface

/-- Index stability of a view space: `getView(i).index == i` at every index
where `getView` is defined. -/
def ViewSpace.IndexStable {R : Type} (vs : ViewSpace R) : Prop :=
  ∀ (i : Nat) (v : View R), vs.getView i = some v → v.index = i

/-- The value of a string of decimal digits, most significant digit first. -/
def decimalValue (digits : List Char) : Nat :=
  digits.foldl (fun acc c => 10 * acc + (c.toNat - 48)) 0

/-! ## The scenario of the specification -/

section Scenario

variable (R : Type) [Field R]

/-- A view at the position `(x, y, z)` with the identity orientation. -/
def viewAt (index : Nat) (x y z : R) : View R :=
  ⟨⟨⟨x, y, z⟩, ⟨1, 0, 0, 0⟩⟩, index⟩

/-- The view space with three views at (0,0,0), (1,0,0) and (2,2,0). -/
def scenarioSpace : ViewSpace R :=
  ⟨[viewAt R 0 0 0 0, viewAt R 1 1 0 0, viewAt R 2 2 2 0]⟩

/-- The interface constructed over `scenarioSpace`. -/
def scenario : FlyingStereoCameraInterface R :=
  (FlyingStereoCameraInterface.ctor none (scenarioSpace R) true).state

/-- A service layer whose messages are the classes themselves. -/
def plainWire : Wire R :=
  { ViewMsg := View R
    ViewSpaceMsg := ViewSpace R
    MovementCostMsg := MovementCost R
    viewOfMsg := id
    viewToMsg := id
    viewSpaceToMsg := id
    movementCostToMsg := id }

end Scenario

/-- A view at the position `(x, y, z)` in doubles, with the identity
orientation. -/
def doubleViewAt (index : Nat) (x y z : ℚ) : View Double :=
  ⟨⟨⟨.finite x, .finite y, .finite z⟩, ⟨.finite 1, .finite 0, .finite 0, .finite 0⟩⟩, index⟩

/-- An interface in doubles, over a view space of two views that are 2^-600
apart. -/
def doubleScenario : FlyingStereoCameraInterface Double :=
  { view_planning_frame_ := "dr_origin"
    view_space_ := ⟨[doubleViewAt 0 0 0 0, doubleViewAt 1 (2 ^ (-600 : ℤ)) 0 0]⟩
    current_view_ := 0
    cam_to_image_ := ⟨.finite 0.5, .finite 0.5, .finite (-0.5), .finite 0.5⟩ }

/-! ## Theorems -/

open FlyingStereoCameraInterface

/-! ### Euclidean distance -/

/-- The scalar product of two triples is bounded as Cauchy and Schwarz say. -/
theorem dot_sq_le (a b c x y z : ℝ) :
    (a * x + b * y + c * z) ^ 2 ≤ (a * a + b * b + c * c) * (x * x + y * y + z * z) := by
  nlinarith [sq_nonneg (a * y - b * x), sq_nonneg (a * z - c * x), sq_nonneg (b * z - c * y)]

/-- A sum of three squares is not negative. -/
theorem sum_mul_self_nonneg (a b c : ℝ) : 0 ≤ a * a + b * b + c * c := by
  nlinarith [mul_self_nonneg a, mul_self_nonneg b, mul_self_nonneg c]

/-- The norm of a sum of two triples is at most the sum of their norms. -/
theorem sqrt_add_le (a b c x y z : ℝ) :
    Real.sqrt ((a + x) * (a + x) + (b + y) * (b + y) + (c + z) * (c + z))
      ≤ Real.sqrt (a * a + b * b + c * c) + Real.sqrt (x * x + y * y + z * z) := by
  have hA := sum_mul_self_nonneg a b c
  have hB := sum_mul_self_nonneg x y z
  have hdot : a * x + b * y + c * z
      ≤ Real.sqrt (a * a + b * b + c * c) * Real.sqrt (x * x + y * y + z * z) := by
    rw [← Real.sqrt_mul hA]
    exact le_trans (le_abs_self _) (Real.abs_le_sqrt (dot_sq_le a b c x y z))
  apply Real.sqrt_le_iff.mpr
  refine ⟨by positivity, ?_⟩
  have h1 := Real.sq_sqrt hA
  have h2 := Real.sq_sqrt hB
  nlinarith [h1, h2, hdot]

/-- The cost `movementCost(View&, View&, bool)` returns, written out. -/
theorem movementCost3_cost (s : FlyingStereoCameraInterface ℝ) (a b : View ℝ) (flag : Bool) :
    (s.movementCost3 Real.sqrt a b flag).ret.cost
      = Real.sqrt ((b.pose.position.x - a.pose.position.x) * (b.pose.position.x - a.pose.position.x)
          + (b.pose.position.y - a.pose.position.y) * (b.pose.position.y - a.pose.position.y)
          + (b.pose.position.z - a.pose.position.z) * (b.pose.position.z - a.pose.position.z)) :=
  rfl

/-- C2, as amended: with positions that are real numbers and exact arithmetic,
for every pair of views and every value of the flag, the cost that
`movementCost(start, target, flag)` returns is the Euclidean distance between
the two positions, whatever the orientations and the indices; it is not
negative; from (0,0,0) to (1,0,0) it is 1 and from (0,0,0) to (2,2,0) it is
2·√2.  The cost is the same for both values of the flag, in exact arithmetic and
in doubles. -/
theorem movementCost3_is_euclidean_distance
    (s : FlyingStereoCameraInterface ℝ) (start target : View ℝ) (flag : Bool) :
    (s.movementCost3 Real.sqrt start target flag).ret.cost
        = Real.sqrt ((target.pose.position.x - start.pose.position.x) ^ 2
            + (target.pose.position.y - start.pose.position.y) ^ 2
            + (target.pose.position.z - start.pose.position.z) ^ 2)
      ∧ 0 ≤ (s.movementCost3 Real.sqrt start target flag).ret.cost
      ∧ (s.movementCost3 Real.sqrt start target true).ret.cost
          = (s.movementCost3 Real.sqrt start target false).ret.cost
      ∧ (∀ (q r : Quaterniond ℝ) (i j : Nat),
          (s.movementCost3 Real.sqrt ⟨⟨⟨0, 0, 0⟩, q⟩, i⟩ ⟨⟨⟨1, 0, 0⟩, r⟩, j⟩ flag).ret.cost = 1)
      ∧ (∀ (q r : Quaterniond ℝ) (i j : Nat),
          (s.movementCost3 Real.sqrt ⟨⟨⟨0, 0, 0⟩, q⟩, i⟩ ⟨⟨⟨2, 2, 0⟩, r⟩, j⟩ flag).ret.cost
            = 2 * Real.sqrt 2)
      ∧ (∀ (d : FlyingStereoCameraInterface Double) (a b : View Double),
          (d.movementCost3 Double.sqrt a b true).ret.cost
            = (d.movementCost3 Double.sqrt a b false).ret.cost) := by
  refine ⟨?_, Real.sqrt_nonneg _, rfl, ?_, ?_, fun _ _ _ => rfl⟩
  · rw [movementCost3_cost]
    simp only [sq]
  · intro q r i j
    rw [movementCost3_cost]
    norm_num
  · intro q r i j
    rw [movementCost3_cost]
    have h : ((2 : ℝ) - 0) * (2 - 0) + (2 - 0) * (2 - 0) + (0 - 0) * (0 - 0) = 2 ^ 2 * 2 := by
      norm_num
    rw [h, Real.sqrt_mul (by positivity), Real.sqrt_sq (by norm_num)]

/-! ### The distance in doubles -/

/-- An integer is the integer nearest to itself. -/
theorem Double.roundHalfEven_intCast (m : ℤ) : Double.roundHalfEven (m : ℚ) = m := by
  simp [Double.roundHalfEven]

/-- A rational from 0 to below one half has 0 as its nearest integer. -/
theorem Double.roundHalfEven_small (n : ℚ) (h0 : 0 ≤ n) (h1 : n < 1 / 2) :
    Double.roundHalfEven n = 0 := by
  have hf : ⌊n⌋ = 0 := Int.floor_eq_zero_iff.mpr ⟨h0, by linarith⟩
  unfold Double.roundHalfEven
  simp only [hf, Int.cast_zero, sub_zero, if_pos h1]

/-- Zero is a double. -/
theorem Double.rnd_zero : Double.rnd 0 = .finite 0 := by
  simp [Double.rnd]

/-- A power of two is positive. -/
theorem two_zpow_pos (k : ℤ) : (0 : ℚ) < 2 ^ k := by
  positivity

/-- The distance between neighbouring doubles at a power of two. -/
theorem Double.quantum_two_zpow (k : ℤ) :
    Double.quantum ((2 : ℚ) ^ k) = 2 ^ max (k - 52) (-1074) := by
  unfold Double.quantum
  have hlog := @Int.log_zpow ℚ _ _ 2 (by norm_num) k
  rw [Nat.cast_ofNat] at hlog
  rw [hlog]

/-- At a power of two in the normal range, the power is 2^52 quanta. -/
theorem two_zpow_div_quantum (k : ℤ) : (2 : ℚ) ^ k / 2 ^ (k - 52) = ((2 ^ 52 : ℤ) : ℚ) := by
  rw [← zpow_sub₀ (by norm_num : (2 : ℚ) ≠ 0)]
  have h : k - (k - 52) = 52 := by omega
  rw [h]
  norm_num

/-- The product of 2^52 and the quantum is the power of two again. -/
theorem two_zpow_mul_quantum (k : ℤ) : ((2 ^ 52 : ℤ) : ℚ) * 2 ^ (k - 52) = 2 ^ k := by
  have h : ((2 ^ 52 : ℤ) : ℚ) = (2 : ℚ) ^ (52 : ℤ) := by norm_num
  rw [h, ← zpow_add₀ (by norm_num : (2 : ℚ) ≠ 0)]
  congr 1
  omega

/-- A power of two in the normal range, from 2^-1022 to 2^1023, is a double. -/
theorem Double.rnd_two_zpow_normal (k : ℤ) (hlo : -1022 ≤ k) (hhi : k ≤ 1023) :
    Double.rnd ((2 : ℚ) ^ k) = .finite (2 ^ k) := by
  have hpos := two_zpow_pos k
  have hq : Double.quantum ((2 : ℚ) ^ k) = 2 ^ (k - 52) := by
    rw [Double.quantum_two_zpow, max_eq_left (by omega)]
  have hlt : ¬ ((2 : ℚ) ^ 1024 ≤ 2 ^ k) := by
    rw [not_le]
    have h : (2 : ℚ) ^ 1024 = 2 ^ (1024 : ℤ) := by norm_num
    rw [h]
    exact zpow_lt_zpow_right₀ (by norm_num) (by omega)
  simp only [Double.rnd, hpos.ne', if_false, abs_of_pos hpos, hq, two_zpow_div_quantum,
    Double.roundHalfEven_intCast, two_zpow_mul_quantum, hlt, not_lt.mpr hpos.le]

/-- A power of two of at most 2^-1076 is rounded to zero. -/
theorem Double.rnd_two_zpow_underflow (k : ℤ) (h : k ≤ -1076) :
    Double.rnd ((2 : ℚ) ^ k) = .finite 0 := by
  have hpos := two_zpow_pos k
  have hq : Double.quantum ((2 : ℚ) ^ k) = 2 ^ (-1074 : ℤ) := by
    rw [Double.quantum_two_zpow, max_eq_right (by omega)]
  have hratio : (2 : ℚ) ^ k / 2 ^ (-1074 : ℤ) < 1 / 2 := by
    rw [← zpow_sub₀ (by norm_num : (2 : ℚ) ≠ 0)]
    have h2 : (1 / 2 : ℚ) = 2 ^ (-1 : ℤ) := by norm_num
    rw [h2]
    exact zpow_lt_zpow_right₀ (by norm_num) (by omega)
  have hm := Double.roundHalfEven_small _ (div_nonneg hpos.le (two_zpow_pos _).le) hratio
  have hbig : ¬ ((2 : ℚ) ^ 1024 ≤ 0) := not_le.mpr (by positivity)
  simp only [Double.rnd, hpos.ne', if_false, abs_of_pos hpos, hq, hm, Int.cast_zero, zero_mul,
    neg_zero, ite_self, hbig]

/-- A power of two from 2^1024 on is rounded to infinity. -/
theorem Double.rnd_two_zpow_overflow (k : ℤ) (h : 1024 ≤ k) :
    Double.rnd ((2 : ℚ) ^ k) = .inf false := by
  have hpos := two_zpow_pos k
  have hq : Double.quantum ((2 : ℚ) ^ k) = 2 ^ (k - 52) := by
    rw [Double.quantum_two_zpow, max_eq_left (by omega)]
  have hge : (2 : ℚ) ^ 1024 ≤ 2 ^ k := by
    have h2 : (2 : ℚ) ^ 1024 = 2 ^ (1024 : ℤ) := by norm_num
    rw [h2]
    exact zpow_le_zpow_right₀ (by norm_num) h
  simp only [Double.rnd, hpos.ne', if_false, abs_of_pos hpos, hq, two_zpow_div_quantum,
    Double.roundHalfEven_intCast, two_zpow_mul_quantum, hge, if_true, not_lt.mpr hpos.le,
    decide_False]

/-- The difference of a double and zero is the double. -/
theorem Double.finite_sub_zero (q : ℚ) (h : Double.rnd q = .finite q) :
    (Double.finite q - Double.finite 0 : Double) = .finite q := by
  show Double.rnd (q - 0) = .finite q
  rw [sub_zero, h]

/-- The difference, the product and the sum of zero and zero are zero, and so is
the square root of zero. -/
theorem Double.zero_ops :
    (Double.finite 0 - Double.finite 0 : Double) = .finite 0
      ∧ (Double.finite 0 * Double.finite 0 : Double) = .finite 0
      ∧ (Double.finite 0 + Double.finite 0 : Double) = .finite 0
      ∧ Double.sqrt (.finite 0) = .finite 0 := by
  refine ⟨?_, ?_, ?_, ?_⟩
  · show Double.rnd (0 - 0) = .finite 0
    rw [sub_zero, Double.rnd_zero]
  · show Double.rnd (0 * 0) = .finite 0
    rw [mul_zero, Double.rnd_zero]
  · show Double.rnd (0 + 0) = .finite 0
    rw [add_zero, Double.rnd_zero]
  · simp [Double.sqrt]

/-- The square of a power of two is rounded from the power of the double
exponent. -/
theorem Double.two_zpow_mul_self (k : ℤ) :
    (Double.finite (2 ^ k) * Double.finite (2 ^ k) : Double) = Double.rnd (2 ^ (k + k)) := by
  show Double.rnd (2 ^ k * 2 ^ k) = _
  rw [← zpow_add₀ (by norm_num : (2 : ℚ) ≠ 0)]

/-- The cost in doubles from the origin to a point on the first axis, written
out. -/
theorem movementCost3_cost_double (x : ℚ) (flag : Bool) :
    (doubleScenario.movementCost3 Double.sqrt (doubleViewAt 0 0 0 0) (doubleViewAt 1 x 0 0)
        flag).ret.cost
      = Double.sqrt
          ((Double.finite x - Double.finite 0) * (Double.finite x - Double.finite 0)
            + (Double.finite 0 - Double.finite 0) * (Double.finite 0 - Double.finite 0)
            + (Double.finite 0 - Double.finite 0) * (Double.finite 0 - Double.finite 0)) :=
  rfl

/-- In doubles, the cost from the origin to (2^-600,0,0) is 0. -/
theorem movementCost3_cost_double_small (flag : Bool) :
    (doubleScenario.movementCost3 Double.sqrt (doubleViewAt 0 0 0 0)
        (doubleViewAt 1 (2 ^ (-600 : ℤ)) 0 0) flag).ret.cost = .finite 0 := by
  obtain ⟨hsub, hmul, hadd, hsqrt⟩ := Double.zero_ops
  have hsmall := Double.rnd_two_zpow_normal (-600) (by norm_num) (by norm_num)
  have hsq : (Double.finite (2 ^ (-600 : ℤ)) * Double.finite (2 ^ (-600 : ℤ)) : Double)
      = .finite 0 := by
    rw [Double.two_zpow_mul_self]
    exact Double.rnd_two_zpow_underflow _ (by norm_num)
  rw [movementCost3_cost_double, Double.finite_sub_zero _ hsmall, hsub, hsq, hmul, hadd, hadd,
    hsqrt]

/-- In doubles, the cost from the origin to (2^600,0,0) is infinity. -/
theorem movementCost3_cost_double_large (flag : Bool) :
    (doubleScenario.movementCost3 Double.sqrt (doubleViewAt 0 0 0 0)
        (doubleViewAt 1 (2 ^ (600 : ℤ)) 0 0) flag).ret.cost = .inf false := by
  obtain ⟨hsub, hmul, hadd, hsqrt⟩ := Double.zero_ops
  have hlarge := Double.rnd_two_zpow_normal 600 (by norm_num) (by norm_num)
  have hsq : (Double.finite (2 ^ (600 : ℤ)) * Double.finite (2 ^ (600 : ℤ)) : Double)
      = .inf false := by
    rw [Double.two_zpow_mul_self]
    exact Double.rnd_two_zpow_overflow _ (by norm_num)
  have hinf : (Double.inf false + Double.finite 0 : Double) = .inf false := rfl
  have hroot : Double.sqrt (.inf false) = .inf false := rfl
  rw [movementCost3_cost_double, Double.finite_sub_zero _ hlarge, hsub, hsq, hmul, hinf, hinf,
    hroot]

/-- One is a double. -/
theorem Double.rnd_one : Double.rnd 1 = .finite 1 := by
  have h := Double.rnd_two_zpow_normal 0 (by norm_num) (by norm_num)
  rwa [zpow_zero] at h

/-- The square root of one is one. -/
theorem Double.sqrt_one : Double.sqrt (.finite 1) = .finite 1 := by
  have hlog : Int.log 2 (1 : ℚ) = 0 := Int.log_one_right 2
  have hr : (Int.toNat 20282409603651670423947251286016).sqrt = 4503599627370496 := by
    have h : Nat.sqrt (4503599627370496 * 4503599627370496) = 4503599627370496 :=
      Nat.sqrt_eq 4503599627370496
    exact h
  simp only [Double.sqrt, hlog]
  norm_num [hr]

/-- In doubles, the cost from the origin to (1,0,0) is 1, as in exact
arithmetic. -/
theorem movementCost3_cost_double_unit (flag : Bool) :
    (doubleScenario.movementCost3 Double.sqrt (doubleViewAt 0 0 0 0) (doubleViewAt 1 1 0 0)
        flag).ret.cost = .finite 1 := by
  obtain ⟨hsub, hmul, hadd, hsqrt⟩ := Double.zero_ops
  have hone : (Double.finite 1 * Double.finite 1 : Double) = .finite 1 := by
    show Double.rnd (1 * 1) = _
    rw [mul_one, Double.rnd_one]
  have hsum : (Double.finite 1 + Double.finite 0 : Double) = .finite 1 := by
    show Double.rnd (1 + 0) = _
    rw [add_zero, Double.rnd_one]
  rw [movementCost3_cost_double, Double.finite_sub_zero _ Double.rnd_one, hsub, hone, hmul, hsum,
    hsum, Double.sqrt_one]

/-- The claim C2 fails in the arithmetic of the source.  The numbers 2^-600 and
2^600 are doubles.  From (0,0,0) to (2^-600,0,0) the Euclidean distance is
2^-600 and the cost `movementCost` returns is 0, because the square 2^-1200 is
rounded to 0; from (0,0,0) to (2^600,0,0) the cost is infinity, because the
square 2^1200 is rounded to infinity.  The other two squares are 0 in both
cases, so the order in which the three are added plays no part. -/
theorem movementCost3_underflows_in_double :
    Double.rnd (2 ^ (-600 : ℤ)) = .finite (2 ^ (-600 : ℤ))
      ∧ (doubleScenario.movementCost3 Double.sqrt (doubleViewAt 0 0 0 0)
            (doubleViewAt 1 (2 ^ (-600 : ℤ)) 0 0) true).ret.cost = .finite 0
      ∧ Real.sqrt (((2 : ℝ) ^ (-600 : ℤ) - 0) ^ 2 + (0 - 0) ^ 2 + (0 - 0) ^ 2)
          = 2 ^ (-600 : ℤ)
      ∧ ((0 : ℚ) : ℝ) ≠ 2 ^ (-600 : ℤ)
      ∧ Double.rnd (2 ^ (600 : ℤ)) = .finite (2 ^ (600 : ℤ))
      ∧ (doubleScenario.movementCost3 Double.sqrt (doubleViewAt 0 0 0 0)
            (doubleViewAt 1 (2 ^ (600 : ℤ)) 0 0) true).ret.cost = .inf false := by
  refine ⟨Double.rnd_two_zpow_normal (-600) (by norm_num) (by norm_num),
    movementCost3_cost_double_small true, ?_, ?_,
    Double.rnd_two_zpow_normal 600 (by norm_num) (by norm_num),
    movementCost3_cost_double_large true⟩
  · have hnonneg : (0 : ℝ) ≤ 2 ^ (-600 : ℤ) := by positivity
    simp only [sub_zero, ne_eq, OfNat.ofNat_ne_zero, not_false_eq_true, zero_pow, add_zero]
    exact Real.sqrt_sq hnonneg
  · have hpos : (0 : ℝ) < 2 ^ (-600 : ℤ) := by positivity
    rw [Rat.cast_zero]
    exact hpos.ne

/-- C3: the cost of `movementCost(View&, View&, bool)` over real positions is a
pseudometric on views: it is 0 from a view to itself, it is the same in both
directions, and it satisfies the triangle inequality, for any values of the
flag. -/
theorem movementCost3_pseudometric
    (s : FlyingStereoCameraInterface ℝ) (a b c : View ℝ) (f g h : Bool) :
    (s.movementCost3 Real.sqrt a a f).ret.cost = 0
      ∧ (s.movementCost3 Real.sqrt a b f).ret.cost = (s.movementCost3 Real.sqrt b a g).ret.cost
      ∧ (s.movementCost3 Real.sqrt a c f).ret.cost
          ≤ (s.movementCost3 Real.sqrt a b g).ret.cost
            + (s.movementCost3 Real.sqrt b c h).ret.cost := by
  refine ⟨?_, ?_, ?_⟩
  · rw [movementCost3_cost]
    simp
  · rw [movementCost3_cost, movementCost3_cost]
    congr 1
    ring
  · rw [movementCost3_cost, movementCost3_cost, movementCost3_cost]
    have key := sqrt_add_le
      (b.pose.position.x - a.pose.position.x) (b.pose.position.y - a.pose.position.y)
      (b.pose.position.z - a.pose.position.z) (c.pose.position.x - b.pose.position.x)
      (c.pose.position.y - b.pose.position.y) (c.pose.position.z - b.pose.position.z)
    have e : ∀ p q r : ℝ, r - q + (p - r) = p - q := fun p q r => by ring
    simpa only [e] using key

/-! ### The current view -/

/-- A view space is defined by `getView` exactly below its size. -/
theorem getView_isSome_iff {R : Type} (vs : ViewSpace R) (i : Nat) :
    (∃ v, vs.getView i = some v) ↔ i < vs.size := by
  unfold ViewSpace.getView ViewSpace.size
  constructor
  · rintro ⟨v, hv⟩
    exact (List.get?_eq_some.mp hv).1
  · intro h
    exact ⟨vs.views.get ⟨i, h⟩, List.get?_eq_get h⟩

section CurrentView

variable {R : Type} [Field R]

/-- The view space of the scenario is index stable. -/
theorem scenarioSpace_indexStable : (scenarioSpace R).IndexStable := by
  intro i v h
  match i with
  | 0 => simp [ViewSpace.getView, scenarioSpace, viewAt] at h; subst h; rfl
  | 1 => simp [ViewSpace.getView, scenarioSpace, viewAt] at h; subst h; rfl
  | 2 => simp [ViewSpace.getView, scenarioSpace, viewAt] at h; subst h; rfl
  | n + 3 => simp [ViewSpace.getView, scenarioSpace] at h

/-- C1: in a state whose view space is index stable, for a view `v` whose index
is a valid index of that view space, `moveTo(v)` returns true and afterwards
`getCurrentView()` returns the view of the view space at `v.index`, a view whose
index is `v.index`. -/
theorem moveTo_then_getCurrentView (s : FlyingStereoCameraInterface R) (v : View R)
    (answer : Bool) (hstable : s.view_space_.IndexStable)
    (hvalid : v.index < s.view_space_.size) :
    (s.moveTo v answer).ret = true
      ∧ ∃ w, s.view_space_.getView v.index = some w
          ∧ (s.moveTo v answer).state.getCurrentView.ret = some w ∧ w.index = v.index := by
  refine ⟨rfl, ?_⟩
  obtain ⟨w, hw⟩ := (getView_isSome_iff s.view_space_ v.index).mpr hvalid
  exact ⟨w, hw, hw, hstable _ _ hw⟩

/-- In the scenario, after `moveTo` of the view with index 2 the current index is
2 and `getCurrentView()` returns the view at (2,2,0). -/
theorem moveTo_then_getCurrentView_witness :
    (scenario ℚ).view_space_.IndexStable
      ∧ (viewAt ℚ 2 2 2 0).index < (scenario ℚ).view_space_.size
      ∧ ((scenario ℚ).moveTo (viewAt ℚ 2 2 2 0) true).state.current_view_ = 2
      ∧ ((scenario ℚ).moveTo (viewAt ℚ 2 2 2 0) true).state.getCurrentView.ret
          = some (viewAt ℚ 2 2 2 0)
      ∧ ((scenario ℚ).moveTo (viewAt ℚ 2 2 2 0) true).ret = true
      ∧ ∃ w, (scenario ℚ).view_space_.getView (viewAt ℚ 2 2 2 0).index = some w
          ∧ ((scenario ℚ).moveTo (viewAt ℚ 2 2 2 0) true).state.getCurrentView.ret = some w
          ∧ w.index = (viewAt ℚ 2 2 2 0).index :=
  ⟨scenarioSpace_indexStable, by decide, rfl, rfl,
    moveTo_then_getCurrentView (scenario ℚ) (viewAt ℚ 2 2 2 0) true
      scenarioSpace_indexStable (by decide)⟩

/-- C5: for every state, every target view and every answer of the set-pose
call, `moveTo` returns true and leaves `current_view_` equal to the index of the
target; the handler `moveToService` sets `success` to true, returns true and
leaves `current_view_` equal to the index of the view built from the request. -/
theorem moveTo_never_fails (W : Wire R) (s : FlyingStereoCameraInterface R) (target : View R)
    (request : W.ViewMsg) (answer : Bool) :
    (s.moveTo target answer).ret = true
      ∧ (s.moveTo target answer).state.current_view_ = target.index
      ∧ (s.moveToService W request answer).res = true
      ∧ (s.moveToService W request answer).ret = true
      ∧ (s.moveToService W request answer).state.current_view_ = (W.viewOfMsg request).index :=
  ⟨rfl, rfl, rfl, rfl, rfl⟩

end CurrentView

/-- C8: for every state and every initialization info, `initializePlanningSpace`
returns false and leaves the object as it was; the handler
`planningSpaceInitService` answers `accepted = false`, itself returns true and
leaves the object as it was. -/
theorem initializePlanningSpace_rejects {R Info : Type} (s : FlyingStereoCameraInterface R)
    (info general_info : Info) :
    (s.initializePlanningSpace info).ret = false
      ∧ (s.initializePlanningSpace info).state = s
      ∧ (s.planningSpaceInitService general_info).res = false
      ∧ (s.planningSpaceInitService general_info).ret = true
      ∧ (s.planningSpaceInitService general_info).state = s :=
  ⟨rfl, rfl, rfl, rfl, rfl⟩

/-! ### The invariant on the current view -/

section Invariant

variable {R : Type} [Field R] {W : Wire R} {InitInfo ReceiveInfo : Type}

/-- No call changes the view space. -/
theorem after_view_space (s : FlyingStereoCameraInterface R)
    (c : Call R W InitInfo ReceiveInfo) : (c.after s).view_space_ = s.view_space_ := by
  cases c <;> first | rfl | (simp only [Call.after, runBody]; split <;> rfl)

/-- A call that is a move leaves the index of its target in `current_view_`. -/
theorem after_current_view_of_target (s : FlyingStereoCameraInterface R)
    (c : Call R W InitInfo ReceiveInfo) (t : View R) (h : c.target = some t) :
    (c.after s).current_view_ = t.index := by
  cases c <;> simp only [Call.target, Option.some.injEq, reduceCtorEq] at h <;> subst h <;> rfl

/-- A call that is not a move leaves `current_view_` as it was. -/
theorem after_current_view_of_no_target (s : FlyingStereoCameraInterface R)
    (c : Call R W InitInfo ReceiveInfo) (h : c.target = none) :
    (c.after s).current_view_ = s.current_view_ := by
  cases c <;> simp only [Call.target, reduceCtorEq] at h <;>
    first | rfl | (simp only [Call.after, runBody]; split <;> rfl)

/-- The constructor over a view space that is not empty leaves the index of the
first view in `current_view_`. -/
theorem ctor_current_view (frame : Option String) (loaded : ViewSpace R) (answer : Bool)
    (first : View R) (h : loaded.getView 0 = some first) :
    (ctor frame loaded answer).state.current_view_ = first.index
      ∧ (ctor frame loaded answer).state.view_space_ = loaded := by
  have hsize : loaded.size ≠ 0 :=
    Nat.pos_iff_ne_zero.mp ((getView_isSome_iff loaded 0).mp ⟨first, h⟩)
  simp [ctor, ctorInit, hsize, h, moveTo]

/-- C4, as amended: `current_view_` is a valid index of the view space in the
state the constructor produces over a view space that is not empty and is index
stable; a call keeps it valid when the call is not a move or when the index of
the target of the move is a valid index of the view space; after a move it is
valid exactly when the index of the target is. -/
theorem validIndex_kept_by_moves_in_range (R : Type) [Field R] (W : Wire R)
    (InitInfo ReceiveInfo : Type) :
    (∀ (frame : Option String) (loaded : ViewSpace R) (answer : Bool),
        loaded.size ≠ 0 → loaded.IndexStable → ValidIndex (ctor frame loaded answer).state)
      ∧ (∀ (s : FlyingStereoCameraInterface R) (c : Call R W InitInfo ReceiveInfo),
          ValidIndex s → (∀ t, c.target = some t → t.index < s.view_space_.size) →
            ValidIndex (c.after s))
      ∧ (∀ (s : FlyingStereoCameraInterface R) (c : Call R W InitInfo ReceiveInfo) (t : View R),
          c.target = some t → (ValidIndex (c.after s) ↔ t.index < s.view_space_.size)) := by
  refine ⟨?_, ?_, ?_⟩
  · intro frame loaded answer hsize hstable
    obtain ⟨first, hfirst⟩ :=
      (getView_isSome_iff loaded 0).mpr (Nat.pos_iff_ne_zero.mpr hsize)
    obtain ⟨hcur, hvs⟩ := ctor_current_view frame loaded answer first hfirst
    unfold ValidIndex
    rw [hcur, hvs, hstable 0 first hfirst]
    exact Nat.pos_iff_ne_zero.mpr hsize
  · intro s c hs hc
    unfold ValidIndex at *
    rw [after_view_space]
    cases htarget : c.target with
    | none => rw [after_current_view_of_no_target s c htarget]; exact hs
    | some t => rw [after_current_view_of_target s c t htarget]; exact hc t htarget
  · intro s c t htarget
    unfold ValidIndex
    rw [after_view_space, after_current_view_of_target s c t htarget]

end Invariant

/-- The amended invariant in the scenario: the constructed state is valid, and
so is the state after the handler `moveToService` is given the view with index
2. -/
theorem validIndex_kept_by_moves_in_range_witness :
    (scenarioSpace ℚ).size ≠ 0 ∧ (scenarioSpace ℚ).IndexStable
      ∧ ValidIndex (ctor none (scenarioSpace ℚ) true).state
      ∧ ValidIndex (scenario ℚ)
      ∧ ValidIndex ((Call.moveToService (viewAt ℚ 2 2 2 0) false :
          Call ℚ (plainWire ℚ) Unit Bool).after (scenario ℚ)) :=
  ⟨by decide, scenarioSpace_indexStable,
    (validIndex_kept_by_moves_in_range ℚ (plainWire ℚ) Unit Bool).1 none (scenarioSpace ℚ) true
      (by decide) scenarioSpace_indexStable,
    by decide,
    (validIndex_kept_by_moves_in_range ℚ (plainWire ℚ) Unit Bool).2.1 (scenario ℚ)
      (Call.moveToService (viewAt ℚ 2 2 2 0) false) (by decide)
      (fun t ht => by cases ht; decide)⟩

/-- The invariant of C4 is broken by a move: in the scenario `current_view_` is a
valid index, and after `moveTo` of a view with index 7, which returns true, it
is 7, not a valid index of a view space of size 3; the same holds for the
handler `moveToService`. -/
theorem validIndex_broken_by_move_out_of_range :
    ValidIndex (scenario ℚ)
      ∧ (scenario ℚ).view_space_.size = 3
      ∧ ((scenario ℚ).moveTo (viewAt ℚ 7 0 0 0) true).ret = true
      ∧ ((scenario ℚ).moveTo (viewAt ℚ 7 0 0 0) true).state.current_view_ = 7
      ∧ ¬ ValidIndex ((scenario ℚ).moveTo (viewAt ℚ 7 0 0 0) true).state
      ∧ ¬ ValidIndex ((scenario ℚ).moveToService (plainWire ℚ) (viewAt ℚ 7 0 0 0) true).state :=
  ⟨by decide, rfl, rfl, rfl, by decide, by decide⟩

/-! ### Startup -/

/-- The calls the constructor makes and the object it leaves, in the two branches
of its test of the size of the view space. -/
theorem ctor_calls {R : Type} [Field R] (frame : Option String) (loaded : ViewSpace R)
    (answer : Bool) :
    (loaded.size = 0 →
        (ctor frame loaded answer).effects
            = [Effect.log .FATAL
                "The view space couldn't be loaded from file. Shutting down node...",
               .shutdown] ++ advertised.map .advertiseService
          ∧ (ctor frame loaded answer).state = ctorInit frame loaded)
      ∧ (0 < loaded.size →
          ∃ first, loaded.getView 0 = some first
            ∧ (ctor frame loaded answer).effects
                = [Effect.log .INFO
                    ("Loaded view space with " ++ toString loaded.size ++ " views."),
                   .log .INFO "Setting up first position.",
                   .serviceCall "/gazebo/set_model_state"
                      ⟨"flying_stereo_cam",
                        ⟨first.pose.position,
                          first.pose.orientation.mul ⟨0.5, 0.5, -0.5, 0.5⟩⟩⟩ answer,
                   .sleep 1] ++ advertised.map .advertiseService
            ∧ (ctor frame loaded answer).state
                = { ctorInit frame loaded with current_view_ := first.index }) := by
  constructor
  · intro h
    simp [ctor, ctorInit, h]
  · intro h
    obtain ⟨first, hfirst⟩ := (getView_isSome_iff loaded 0).mpr h
    refine ⟨first, hfirst, ?_, ?_⟩
    · simp [ctor, ctorInit, Nat.pos_iff_ne_zero.mp h, hfirst, moveTo, toROS]
    · simp [ctor, ctorInit, Nat.pos_iff_ne_zero.mp h, hfirst, moveTo]

/-- After a shutdown, the advertisements of the constructor leave the node shut
down and without services. -/
theorem run_shutdown_then_advertise {R : Type} (n : Node) (msg : String) :
    n.run ([Effect.log .FATAL msg, .shutdown] ++ advertised.map .advertiseService
        : List (Effect R)) = ⟨false, []⟩ :=
  rfl

/-- On a started node, the calls of the constructor over a view space that is
not empty leave the node ok, with the seven services of the interface. -/
theorem run_move_then_advertise {R : Type} (loadedMsg : String) (srv : SetModelState R)
    (answer : Bool) (seconds : R) :
    Node.started.run ([Effect.log .INFO loadedMsg, .log .INFO "Setting up first position.",
        .serviceCall "/gazebo/set_model_state" srv answer, .sleep seconds]
          ++ advertised.map .advertiseService : List (Effect R)) = ⟨true, advertised⟩ := by
  simp [Node.run, Node.step, Node.started, advertised]

/-- C6: over a loaded view space of size 0 the constructor logs a fatal message
and shuts the node down, issues no move command, and none of its service
handlers is available on the node afterwards: the node is not ok and has no
service; over a view space of size greater than 0 it logs no fatal message and
does not shut the node down, it moves to the first view, and the node is ok
afterwards, with the seven services of the interface. -/
theorem ctor_startup_gating {R : Type} [Field R] (frame : Option String)
    (loaded : ViewSpace R) (answer : Bool) :
    (loaded.size = 0 →
        Effect.log .FATAL "The view space couldn't be loaded from file. Shutting down node..."
            ∈ (ctor frame loaded answer).effects
          ∧ Effect.shutdown ∈ (ctor frame loaded answer).effects
          ∧ (∀ service srv reply,
              Effect.serviceCall service srv reply ∉ (ctor frame loaded answer).effects)
          ∧ (ctor frame loaded answer).state = ctorInit frame loaded
          ∧ (Node.started.run (ctor frame loaded answer).effects).ok = false
          ∧ (Node.started.run (ctor frame loaded answer).effects).services = [])
      ∧ (0 < loaded.size →
          (∀ msg, Effect.log .FATAL msg ∉ (ctor frame loaded answer).effects)
            ∧ Effect.shutdown ∉ (ctor frame loaded answer).effects
            ∧ (∃ first, loaded.getView 0 = some first
                ∧ Effect.serviceCall "/gazebo/set_model_state"
                    ⟨"flying_stereo_cam",
                      ⟨first.pose.position,
                        first.pose.orientation.mul ⟨0.5, 0.5, -0.5, 0.5⟩⟩⟩ answer
                  ∈ (ctor frame loaded answer).effects
                ∧ (ctor frame loaded answer).state.current_view_ = first.index)
            ∧ (Node.started.run (ctor frame loaded answer).effects).ok = true
            ∧ (Node.started.run (ctor frame loaded answer).effects).services = advertised) := by
  constructor
  · intro h
    obtain ⟨heff, hstate⟩ := (ctor_calls frame loaded answer).1 h
    rw [heff, run_shutdown_then_advertise]
    refine ⟨by simp, by simp, ?_, hstate, rfl, rfl⟩
    intro service srv reply
    simp [advertised]
  · intro h
    obtain ⟨first, hfirst, heff, hstate⟩ := (ctor_calls frame loaded answer).2 h
    rw [heff, run_move_then_advertise]
    refine ⟨?_, by simp [advertised], ⟨first, hfirst, by simp, ?_⟩, rfl, rfl⟩
    · intro msg
      simp [advertised]
    · rw [hstate]

/-- The gate of the constructor over the empty view space, where no service is
available afterwards, and over the view space of the scenario, where the camera
is moved to the first view and the seven services are available. -/
theorem ctor_startup_gating_witness :
    (⟨[]⟩ : ViewSpace ℚ).size = 0 ∧ 0 < (scenarioSpace ℚ).size
      ∧ (Node.started.run (ctor none (⟨[]⟩ : ViewSpace ℚ) true).effects).services = []
      ∧ (∀ service srv reply,
          Effect.serviceCall service srv reply ∉ (ctor none (⟨[]⟩ : ViewSpace ℚ) true).effects)
      ∧ (Node.started.run (ctor none (scenarioSpace ℚ) true).effects).services = advertised
      ∧ (∃ first, (scenarioSpace ℚ).getView 0 = some first
          ∧ Effect.serviceCall "/gazebo/set_model_state"
              ⟨"flying_stereo_cam",
                ⟨first.pose.position, first.pose.orientation.mul ⟨0.5, 0.5, -0.5, 0.5⟩⟩⟩ true
            ∈ (ctor none (scenarioSpace ℚ) true).effects
          ∧ (ctor none (scenarioSpace ℚ) true).state.current_view_ = first.index) :=
  ⟨rfl, by decide,
    ((ctor_startup_gating none (⟨[]⟩ : ViewSpace ℚ) true).1 rfl).2.2.2.2.2,
    ((ctor_startup_gating none (⟨[]⟩ : ViewSpace ℚ) true).1 rfl).2.2.1,
    ((ctor_startup_gating none (scenarioSpace ℚ) true).2 (by decide)).2.2.2.2,
    ((ctor_startup_gating none (scenarioSpace ℚ) true).2 (by decide)).2.2.1⟩

/-! ### The planning space -/

/-- C7: `getPlanningSpace` returns true and leaves the object as it was, and it
leaves the handle of the caller as it was, since the view space is assigned to
the parameter only; called in the scenario with a null handle, it returns true
and the handle of the caller is still null, not the view space of the
interface. -/
theorem getPlanningSpace_leaves_handle {R : Type} (s : FlyingStereoCameraInterface R)
    (handle : ViewSpacePtr) :
    (s.getPlanningSpace handle).ret = true
      ∧ (s.getPlanningSpace handle).state = s
      ∧ (s.getPlanningSpace handle)._space = .view_space_
      ∧ (s.getPlanningSpace handle).handle = handle
      ∧ ((scenario ℚ).getPlanningSpace .null).ret = true
      ∧ ((scenario ℚ).getPlanningSpace .null).handle = .null
      ∧ ((scenario ℚ).getPlanningSpace .null).handle ≠ .view_space_ :=
  ⟨rfl, rfl, rfl, rfl, rfl, rfl, by decide⟩

/-! ### Data retrieval -/

/-- The character of a decimal digit has the value of the digit. -/
theorem digitChar_value (d : Nat) (h : d < 10) : (Nat.digitChar d).toNat - 48 = d := by
  interval_cases d <;> rfl

/-- Appending one digit multiplies the value by ten and adds the digit. -/
theorem decimalValue_snoc (ds : List Char) (c : Char) :
    decimalValue (ds ++ [c]) = 10 * decimalValue ds + (c.toNat - 48) := by
  simp [decimalValue, List.foldl_append]

/-- With enough fuel, the digits of `n` are put in front of the accumulator, and
their value is `n`. -/
theorem toDigitsCore_value (fuel : Nat) : ∀ (n : Nat) (acc : List Char), n < fuel →
    ∃ ds, Nat.toDigitsCore 10 fuel n acc = ds ++ acc ∧ decimalValue ds = n := by
  induction fuel with
  | zero => intro n acc h; omega
  | succ fuel ih =>
    intro n acc h
    rw [Nat.toDigitsCore]
    have hmod : n % 10 < 10 := Nat.mod_lt _ (by norm_num)
    by_cases h0 : n / 10 = 0
    · simp only [h0, if_true]
      refine ⟨[] ++ [Nat.digitChar (n % 10)], rfl, ?_⟩
      rw [decimalValue_snoc, digitChar_value _ hmod]
      simp only [decimalValue, List.foldl_nil]
      omega
    · simp only [h0, if_false]
      obtain ⟨ds, hds, hval⟩ := ih (n / 10) (Nat.digitChar (n % 10) :: acc) (by omega)
      refine ⟨ds ++ [Nat.digitChar (n % 10)], ?_, ?_⟩
      · rw [hds]; simp
      · rw [decimalValue_snoc, hval, digitChar_value _ hmod]
        omega

/-- Reading the decimal rendering of a number gives the number back. -/
theorem decimalValue_repr (n : Nat) : decimalValue (Nat.repr n).data = n := by
  obtain ⟨ds, hds, hval⟩ := toDigitsCore_value (n + 1) n [] (Nat.lt_succ_self n)
  simp only [Nat.repr, Nat.toDigits, List.asString, hds, List.append_nil, hval]

/-- Two indices with the same file name are the same index. -/
theorem pclFile_injective : Function.Injective pclFile := by
  intro a b h
  unfold pclFile at h
  have hdata := List.append_cancel_left
    (by simpa only [String.data_append] using congrArg String.data h)
  have hrepr : Nat.repr a = Nat.repr b := String.ext hdata
  rw [← decimalValue_repr a, ← decimalValue_repr b, hrepr]

/-- C9, as amended: the handler `retrieveDataService` asks the data retriever
for the capture at a path that ends in the decimal rendering of
`current_view_`, so that two states with different `current_view_` ask for
different paths, puts exactly the status the retriever produces in the response
and returns true; the direct call `retrieveData()` asks the data retriever
without a path and returns exactly the status it produces; neither changes the
object. -/
theorem retrieveData_requests {R Info : Type} (s : FlyingStereoCameraInterface R)
    (retriever : Option String → Info) :
    (s.retrieveDataService retriever).effects
        = [.log .INFO "Data retrieval service called.",
           .retrieveData (some
              ("/home/stefan/catkin_ws/src/dense_reconstruction/data/bunny_pcl/bunny_set_"
                ++ toString s.current_view_))]
      ∧ (s.retrieveDataService retriever).res
          = retriever (some
              ("/home/stefan/catkin_ws/src/dense_reconstruction/data/bunny_pcl/bunny_set_"
                ++ toString s.current_view_))
      ∧ (s.retrieveDataService retriever).ret = true
      ∧ (s.retrieveDataService retriever).state = s
      ∧ Function.Injective (fun current_view_ : Nat =>
          "/home/stefan/catkin_ws/src/dense_reconstruction/data/bunny_pcl/bunny_set_"
            ++ toString current_view_)
      ∧ (s.retrieveData retriever).effects = [.retrieveData none]
      ∧ (s.retrieveData retriever).ret = retriever none
      ∧ (s.retrieveData retriever).state = s :=
  ⟨rfl, rfl, rfl, rfl, pclFile_injective, rfl, rfl, rfl⟩

/-- The claim C9 fails for the direct call: in the scenario, before and after a
move to the view with index 2, `current_view_` is 0 and 2, and `retrieveData()`
makes the same request both times, one without a path, while the handler asks
for the paths that end in 0 and in 2. -/
theorem retrieveData_direct_call_has_no_path :
    (scenario ℚ).current_view_ = 0
      ∧ ((scenario ℚ).moveTo (viewAt ℚ 2 2 2 0) true).state.current_view_ = 2
      ∧ ((scenario ℚ).retrieveData (fun path => path.isSome)).effects = [.retrieveData none]
      ∧ (((scenario ℚ).moveTo (viewAt ℚ 2 2 2 0) true).state.retrieveData
            (fun path => path.isSome)).effects = [.retrieveData none]
      ∧ ((scenario ℚ).retrieveDataService (fun path => path.isSome)).effects
          = [.log .INFO "Data retrieval service called.",
             .retrieveData (some
              "/home/stefan/catkin_ws/src/dense_reconstruction/data/bunny_pcl/bunny_set_0")]
      ∧ (((scenario ℚ).moveTo (viewAt ℚ 2 2 2 0) true).state.retrieveDataService
            (fun path => path.isSome)).effects
          = [.log .INFO "Data retrieval service called.",
             .retrieveData (some
              "/home/stefan/catkin_ws/src/dense_reconstruction/data/bunny_pcl/bunny_set_2")] :=
  ⟨rfl, rfl, rfl, rfl, by decide, by decide⟩

/-! ### The commanded pose -/

end DenseReconstruction
